import Mathlib

/-!
Verification of the SnapSort backend (src/backend_server/app.py).

Shallow embedding of the core logic: the image encoder `_encode_image`,
the per-image orchestrator `_analyze_file`, and the batch coordinator
`analyze`. The external vision-inference service (`client.responses.create`
followed by `json.loads`) is an opaque collaborator; it is embedded as a
function parameter `call : String → Except String Json` mapping the image
data URL to either a raised-exception message or the parsed JSON value.
Likewise the Python standard-library `mimetypes.guess_type` is a parameter
`guessType : String → Option String`, with a concrete table-based model
`guess_type` provided for evaluation.
-/

/-- An uploaded multipart file: its filename and its raw byte content.
Bytes are naturals (meaningful values are < 256). -/
structure UploadFile where
  filename : String
  content : List Nat
deriving Repr, DecidableEq, Inhabited

/-- Embeds the pydantic model `ProductOut` (app.py lines 72-75):
brand and price are `Optional[str]`, product_name is a required `str`. -/
structure ProductOut where
  brand : Option String
  product_name : String
  price : Option String
deriving Repr, DecidableEq, Inhabited

/-- Embeds the pydantic model `ImageResult` (app.py lines 78-82). -/
structure ImageResult where
  filename : String
  type : String
  products : List ProductOut
  error : Option String := none
deriving Repr, DecidableEq, Inhabited

/-- Embeds the pydantic model `AnalyzeResponse` (app.py lines 85-86). -/
structure AnalyzeResponse where
  results : List ImageResult
deriving Repr, DecidableEq, Inhabited

/-- Embeds `fastapi.HTTPException` restricted to the fields the code uses. -/
structure HTTPException where
  status_code : Nat
  detail : String
deriving Repr, DecidableEq, Inhabited

/-- JSON values, as produced by `json.loads` on the service's output text. -/
inductive Json where
  | null
  | bool (b : Bool)
  | num (n : Int)
  | str (s : String)
  | arr (items : List Json)
  | obj (fields : List (String × Json))
deriving Repr, Inhabited

/-- The standard base64 alphabet (RFC 4648), as used by Python's
`base64.b64encode`. -/
def base64Alphabet : List Char :=
  ['A', 'B', 'C', 'D', 'E', 'F', 'G', 'H', 'I', 'J', 'K', 'L', 'M',
   'N', 'O', 'P', 'Q', 'R', 'S', 'T', 'U', 'V', 'W', 'X', 'Y', 'Z',
   'a', 'b', 'c', 'd', 'e', 'f', 'g', 'h', 'i', 'j', 'k', 'l', 'm',
   'n', 'o', 'p', 'q', 'r', 's', 't', 'u', 'v', 'w', 'x', 'y', 'z',
   '0', '1', '2', '3', '4', '5', '6', '7', '8', '9', '+', '/']

/-- The character encoding a 6-bit group. -/
def b64Char (n : Nat) : Char := base64Alphabet.getD n '?'

/-- The 6-bit value of a base64 character (inverse of `b64Char` on the
alphabet). -/
def b64Index (c : Char) : Nat := base64Alphabet.indexOf c

/-- Standard base64 encoding of a byte list, three bytes to four characters,
with `=` padding — models `base64.b64encode` (standard alphabet, no line
wrapping). -/
def b64EncodeChunks : List Nat → List Char
  | [] => []
  | [a] => [b64Char (a / 4), b64Char (a % 4 * 16), '=', '=']
  | [a, b] => [b64Char (a / 4), b64Char (a % 4 * 16 + b / 16), b64Char (b % 16 * 4), '=']
  | a :: b :: c :: rest =>
      b64Char (a / 4) :: b64Char (a % 4 * 16 + b / 16) ::
      b64Char (b % 16 * 4 + c / 64) :: b64Char (c % 64) :: b64EncodeChunks rest

/-- Base64 encoding of a byte list as a string. -/
def base64Encode (data : List Nat) : String := String.mk (b64EncodeChunks data)

/-- Standard base64 decoding of a character list back into bytes, honouring
`=` padding on the final four-character group. -/
def b64DecodeChunks : List Char → Option (List Nat)
  | [] => some []
  | c1 :: c2 :: c3 :: c4 :: rest =>
      if c3 = '=' then some [b64Index c1 * 4 + b64Index c2 / 16]
      else if c4 = '=' then
        some [b64Index c1 * 4 + b64Index c2 / 16, b64Index c2 % 16 * 16 + b64Index c3 / 4]
      else
        (b64DecodeChunks rest).map (fun tail =>
          (b64Index c1 * 4 + b64Index c2 / 16) ::
          (b64Index c2 % 16 * 16 + b64Index c3 / 4) ::
          (b64Index c3 % 4 * 64 + b64Index c4) :: tail)
  | _ => none

/-- Base64 decoding of a string. -/
def base64Decode (s : String) : Option (List Nat) := b64DecodeChunks s.toList

/-- Models Python's truthiness-based default `x or d` on an optional string:
the default is taken when the value is absent or the empty string. -/
def pyOr (s : Option String) (dflt : String) : String :=
  match s with
  | none => dflt
  | some v => if v.isEmpty then dflt else v

/-- Models the Python standard-library `mimetypes.guess_type` (first
component of its result), restricted to common image extensions: the
extension after the last dot is looked up case-insensitively, and an
unknown extension or a name without a dot yields none. -/
def imageMimeTable : List (String × String) :=
  [("png", "image/png"), ("jpg", "image/jpeg"), ("jpeg", "image/jpeg"),
   ("gif", "image/gif"), ("bmp", "image/bmp"), ("webp", "image/webp"),
   ("svg", "image/svg+xml"), ("tif", "image/tiff"), ("tiff", "image/tiff")]

/-- The characters after the last dot of a name, or none if it has no dot. -/
def extension_chars : List Char → Option (List Char)
  | [] => none
  | c :: rest =>
      match extension_chars rest with
      | some e => some e
      | none => if c = '.' then some rest else none

/-- Extension-based MIME lookup modelling `mimetypes.guess_type`: the
extension after the last dot, lowercased, is looked up in the table. -/
def guess_type (filename : String) : Option String :=
  match extension_chars filename.toList with
  | none => none
  | some ext =>
      (imageMimeTable.find? (fun p => p.1 == String.mk (ext.map Char.toLower))).map Prod.snd

/-- Embeds `_encode_image` (app.py lines 89-96): an empty buffer raises
`ValueError("empty file")`; otherwise the bytes are base64-encoded and
prefixed with the MIME type guessed from the filename, defaulting to
image/png. `guessType` stands for `mimetypes.guess_type`. -/
def _encode_image (guessType : String → Option String) (upload : UploadFile) :
    Except String String :=
  if upload.content.isEmpty then .error "empty file"
  else
    .ok ("data:" ++ pyOr (guessType upload.filename) "image/png" ++ ";base64," ++
      base64Encode upload.content)

/-- Field lookup in a parsed JSON object, modelling Python `dict` access. -/
def lookupField (fields : List (String × Json)) (key : String) : Option Json :=
  (fields.find? (fun p => p.1 == key)).map Prod.snd

/-- Models pydantic validation of an `Optional[str]` field passed as a
keyword argument: an absent key or an explicit null becomes `none`, a
string is accepted, anything else is a validation error. -/
def parseOptStr (v : Option Json) (field : String) : Except String (Option String) :=
  match v with
  | none => .ok none
  | some .null => .ok none
  | some (.str s) => .ok (some s)
  | some _ => .error ("validation error: " ++ field)

/-- Models pydantic validation of a required `str` field: only a present
string value is accepted. -/
def parseReqStr (v : Option Json) (field : String) : Except String String :=
  match v with
  | some (.str s) => .ok s
  | _ => .error ("validation error: " ++ field)

/-- Embeds `ProductOut(**item)` (app.py line 124): the extracted item must
be a mapping; `brand` and `price` are optional (null allowed, absent
defaults to null), `product_name` is required. -/
def productOfJson : Json → Except String ProductOut
  | .obj fields => do
      let brand ← parseOptStr (lookupField fields "brand") "brand"
      let pname ← parseReqStr (lookupField fields "product_name") "product_name"
      let price ← parseOptStr (lookupField fields "price") "price"
      .ok { brand := brand, product_name := pname, price := price }
  | _ => .error "TypeError: ProductOut expects a mapping"

/-- Embeds `raw.get("type", "unknown")` (app.py line 123) followed by
pydantic validation of `ImageResult.type : str`. -/
def getType (fields : List (String × Json)) : Except String String :=
  match lookupField fields "type" with
  | none => .ok "unknown"
  | some (.str s) => .ok s
  | some _ => .error "validation error: type"

/-- Embeds `raw.get("extracted", [])` (app.py line 124): an absent key
defaults to the empty sequence; iterating a non-list value fails. -/
def getExtracted (fields : List (String × Json)) : Except String (List Json) :=
  match lookupField fields "extracted" with
  | none => .ok []
  | some (.arr items) => .ok items
  | some _ => .error "TypeError: extracted is not a list"

/-- Embeds the list comprehension `[ProductOut(**item) for item in ...]`
(app.py line 124): the first failing item aborts the construction. -/
def parseProducts : List Json → Except String (List ProductOut)
  | [] => .ok []
  | item :: rest => do
      let p ← productOfJson item
      let ps ← parseProducts rest
      .ok (p :: ps)

/-- Embeds the `try` body of `_analyze_file` (app.py lines 118-125):
encode the image, call the external service, and build the successful
`ImageResult` from the parsed response. `raw.get` on a non-mapping raises. -/
def analyzeAttempt (guessType : String → Option String)
    (call : String → Except String Json) (u : UploadFile) :
    Except String ImageResult := do
  let data_url ← _encode_image guessType u
  let raw ← call data_url
  match raw with
  | .obj fields => do
      let ty ← getType fields
      let items ← getExtracted fields
      let products ← parseProducts items
      .ok { filename := u.filename, type := ty, products := products, error := none }
  | _ => .error "AttributeError: response is not a mapping"

/-- Embeds `_analyze_file` (app.py lines 117-127): any exception in the
attempt is swallowed into an error-typed `ImageResult` carrying `str(exc)`. -/
def _analyze_file (guessType : String → Option String)
    (call : String → Except String Json) (u : UploadFile) : ImageResult :=
  match analyzeAttempt guessType call u with
  | .ok r => r
  | .error e => { filename := u.filename, type := "error", products := [], error := some e }

/-- Instrumented variant of `_analyze_file` additionally reporting how many
calls were made to the external service: the call happens exactly when the
encode step succeeds. -/
def _analyze_fileT (guessType : String → Option String)
    (call : String → Except String Json) (u : UploadFile) : ImageResult × Nat :=
  (_analyze_file guessType call u,
   match _encode_image guessType u with
   | .ok _ => 1
   | .error _ => 0)

/-- Models the falsiness test `not client.api_key` (app.py line 141):
the key is missing when the environment variable was unset or empty. -/
def apiKeyMissing (apiKey : Option String) : Bool :=
  match apiKey with
  | none => true
  | some s => s.isEmpty

/-- Embeds the `/analyze` endpoint (app.py lines 135-146), instrumented:
the result is paired with the number of per-image orchestrations dispatched
and the number of external-service calls made. The precondition checks run
in source order: empty batch (400), more than ten files (400), missing
credential (500); only then is one `_analyze_file` dispatched per upload
and the results gathered in submission order. -/
def analyzeT (apiKey : Option String) (guessType : String → Option String)
    (call : String → Except String Json) (files : List UploadFile) :
    Except HTTPException AnalyzeResponse × Nat × Nat :=
  if files.isEmpty then
    (.error { status_code := 400, detail := "At least one image is required" }, 0, 0)
  else if files.length > 10 then
    (.error { status_code := 400, detail := "Maximum of 10 images allowed" }, 0, 0)
  else if apiKeyMissing apiKey then
    (.error { status_code := 500, detail := "OPENAI_API_KEY not configured" }, 0, 0)
  else
    let runs := files.map (_analyze_fileT guessType call)
    (.ok { results := runs.map Prod.fst }, files.length, (runs.map Prod.snd).sum)

/-- Embeds the `/analyze` endpoint's visible behaviour (app.py lines
135-146), without the instrumentation counters. -/
def analyze (apiKey : Option String) (guessType : String → Option String)
    (call : String → Except String Json) (files : List UploadFile) :
    Except HTTPException AnalyzeResponse :=
  (analyzeT apiKey guessType call files).1

/-- Models `asyncio.gather`'s completion side: tasks finish in an arbitrary
schedule (a permutation of the task indices), each completion recording its
submission index with its result. -/
def completeInOrder (tasks : List ImageResult) (sched : List Nat) :
    List (Nat × ImageResult) :=
  sched.map (fun i => (i, tasks.getD i default))

/-- Models `asyncio.gather`'s join side: results are read back slot by slot
in submission-index order, regardless of the completion order. -/
def assembleInOrder (n : Nat) (completed : List (Nat × ImageResult)) :
    List ImageResult :=
  (List.range n).map (fun i =>
    match completed.find? (fun p => p.1 == i) with
    | some p => p.2
    | none => default)

/-- A concrete stand-in for `mimetypes.guess_type` used on closed inputs. -/
def guessNone : String → Option String := fun _ => none

/-- A concrete always-failing external-service stand-in. -/
def callFail : String → Except String Json := fun _ => .error "boom"

/-- A concrete one-byte upload used on closed inputs. -/
def sampleUpload : UploadFile := { filename := "a.png", content := [1] }

/-- A concrete one-element batch used on closed inputs. -/
def sampleBatch : List UploadFile := [sampleUpload]

/-- A concrete zero-byte upload used on closed inputs. -/
def emptyUpload : UploadFile := { filename := "f.png", content := [] }

/-- A concrete upload whose filename has no extension. -/
def noExtUpload : UploadFile := { filename := "file", content := [2] }

/-- A concrete service stand-in returning the round-trip extraction
response of the spec's testable property. -/
def call7 : String → Except String Json := fun _ =>
  .ok (Json.obj [("type", Json.str "checkout page"),
    ("extracted", Json.arr [Json.obj
      [("brand", Json.str "Nike"),
       ("product_name", Json.str "Running Shorts"),
       ("price", Json.str "$24.99")]])])

/-- A concrete extracted item carrying no brand key. -/
def itemNoBrand : List (String × Json) :=
  [("product_name", Json.str "Tee"), ("price", Json.null)]

example : base64Encode [77, 97, 110] = "TWFu" := by decide
example : base64Encode [77, 97] = "TWE=" := by decide
example : base64Encode [77] = "TQ==" := by decide
example : base64Decode "TWFu" = some [77, 97, 110] := by decide

theorem b64Index_b64Char {n : Nat} (h : n < 64) : b64Index (b64Char n) = n := by
  revert h
  revert n
  decide

theorem b64Char_ne_pad {n : Nat} (h : n < 64) : b64Char n ≠ '=' := by
  revert h
  revert n
  decide

theorem b64_roundtrip : ∀ data : List Nat, (∀ b ∈ data, b < 256) →
    b64DecodeChunks (b64EncodeChunks data) = some data
  | [], _ => rfl
  | [a], h => by
    have ha : a < 256 := h a (by simp)
    simp only [b64EncodeChunks, b64DecodeChunks, if_true]
    rw [b64Index_b64Char (by omega), b64Index_b64Char (by omega)]
    simp only [Option.some.injEq, List.cons.injEq, eq_self_iff_true, and_true]
    omega
  | [a, b], h => by
    have ha : a < 256 := h a (by simp)
    have hb : b < 256 := h b (by simp)
    simp only [b64EncodeChunks, b64DecodeChunks]
    rw [if_neg (b64Char_ne_pad (by omega))]
    simp only [if_true]
    rw [b64Index_b64Char (by omega), b64Index_b64Char (by omega),
        b64Index_b64Char (by omega)]
    simp only [Option.some.injEq, List.cons.injEq, eq_self_iff_true, and_true]
    omega
  | a :: b :: c :: rest, h => by
    have ha : a < 256 := h a (by simp)
    have hb : b < 256 := h b (by simp)
    have hc : c < 256 := h c (by simp)
    have ih := b64_roundtrip rest (fun x hx => h x (by simp [hx]))
    simp only [b64EncodeChunks, b64DecodeChunks]
    rw [if_neg (b64Char_ne_pad (by omega)), if_neg (b64Char_ne_pad (by omega))]
    rw [ih]
    simp only [Option.map_some']
    rw [b64Index_b64Char (by omega), b64Index_b64Char (by omega),
        b64Index_b64Char (by omega), b64Index_b64Char (by omega)]
    simp only [Option.some.injEq, List.cons.injEq, eq_self_iff_true, and_true]
    omega

example : guess_type "a.png" = some "image/png" := rfl
example : guess_type "photo.JPG" = some "image/jpeg" := rfl
example : guess_type "file" = none := rfl
example : guess_type "" = none := rfl
example : guess_type "archive.xyz" = none := rfl

theorem find_completeInOrder (tasks : List ImageResult) (sched : List Nat) (i : Nat)
    (hmem : i ∈ sched) :
    (completeInOrder tasks sched).find? (fun p => p.1 == i) =
      some (i, tasks.getD i default) := by
  induction sched with
  | nil => cases hmem
  | cons j rest ih =>
    simp only [completeInOrder, List.map_cons, List.find?_cons]
    by_cases hji : j = i
    · subst hji
      simp
    · have : (j == i) = false := by simp [hji]
      simp only [this]
      have hmem' : i ∈ rest := by
        rcases List.mem_cons.mp hmem with h | h
        · exact absurd h.symm hji
        · exact h
      exact ih hmem'

theorem gather_preserves_order (tasks : List ImageResult) (sched : List Nat)
    (hperm : sched.Perm (List.range tasks.length)) :
    assembleInOrder tasks.length (completeInOrder tasks sched) = tasks := by
  have hstep : assembleInOrder tasks.length (completeInOrder tasks sched) =
      (List.range tasks.length).map (fun i => tasks.getD i default) := by
    apply List.map_congr_left
    intro i hi
    have hmem : i ∈ sched := hperm.symm.subset hi
    rw [find_completeInOrder tasks sched i hmem]
  rw [hstep]
  apply List.ext_getElem
  · simp
  · intro i h1 h2
    simp only [List.getElem_map, List.getElem_range]
    exact List.getD_eq_getElem tasks default h2

theorem analyzeAttempt_ok_shape (guessType : String → Option String)
    (call : String → Except String Json) (u : UploadFile) (r : ImageResult)
    (h : analyzeAttempt guessType call u = .ok r) :
    r.filename = u.filename ∧ r.error = none := by
  simp only [analyzeAttempt, bind, Except.bind] at h
  split at h
  · cases h
  · split at h
    · cases h
    · split at h
      · split at h
        · cases h
        · split at h
          · cases h
          · split at h
            · cases h
            · cases h
              simp
      · cases h

/-- C1: for every batch of N uploaded images with 1 ≤ N ≤ 10 passing the
precondition checks, `analyze` returns an `AnalyzeResponse` with exactly N
`ImageResult`s, the i-th result corresponding to the i-th submitted image,
and any completion schedule (permutation of the submission indices)
reassembles to that same submission-ordered list. -/
theorem claim_C1 (apiKey : Option String) (guessType : String → Option String)
    (call : String → Except String Json) (files : List UploadFile)
    (h1 : 1 ≤ files.length) (h2 : files.length ≤ 10)
    (h3 : apiKeyMissing apiKey = false) :
    ∃ r : AnalyzeResponse, analyze apiKey guessType call files = .ok r ∧
      r.results.length = files.length ∧
      r.results = files.map (_analyze_file guessType call) ∧
      (∀ i : Nat, r.results[i]? = (files[i]?).map (_analyze_file guessType call)) ∧
      (∀ sched : List Nat, sched.Perm (List.range files.length) →
        assembleInOrder files.length
          (completeInOrder (files.map (_analyze_file guessType call)) sched) = r.results) := by
  have hne : files.isEmpty = false := by
    cases files with
    | nil => simp at h1
    | cons a l => rfl
  have hres : analyze apiKey guessType call files =
      .ok { results := files.map (_analyze_file guessType call) } := by
    simp only [analyze, analyzeT]
    rw [if_neg (by simp [hne]), if_neg (by omega), if_neg (by simp [h3])]
    simp only [List.map_map]
    rfl
  refine ⟨{ results := files.map (_analyze_file guessType call) }, hres, by simp, rfl, ?_, ?_⟩
  · intro i
    simp [List.getElem?_map]
  · intro sched hp
    have hlen : (files.map (_analyze_file guessType call)).length = files.length :=
      List.length_map _ _
    rw [← hlen] at hp ⊢
    exact gather_preserves_order _ _ hp

theorem claim_C1_witness :
    ∃ r : AnalyzeResponse,
      analyze (some "k") guessNone callFail sampleBatch = .ok r ∧
      r.results.length = sampleBatch.length ∧
      r.results = sampleBatch.map (_analyze_file guessNone callFail) ∧
      (∀ i : Nat, r.results[i]? =
        (sampleBatch[i]?).map (_analyze_file guessNone callFail)) ∧
      (∀ sched : List Nat, sched.Perm (List.range sampleBatch.length) →
        assembleInOrder sampleBatch.length
          (completeInOrder (sampleBatch.map (_analyze_file guessNone callFail)) sched) =
          r.results) :=
  claim_C1 (some "k") guessNone callFail sampleBatch (by decide) (by decide) (by decide)

/-- C2: the per-image orchestrator is total — on any failure of the
encode-and-extract attempt it returns an error-typed `ImageResult` carrying
the failure message, and once the batch-level checks pass, the batch call
itself always returns a successful response. -/
theorem claim_C2 (guessType : String → Option String)
    (call : String → Except String Json) (u : UploadFile) :
    (∀ e : String, analyzeAttempt guessType call u = .error e →
      _analyze_file guessType call u =
        { filename := u.filename, type := "error", products := [], error := some e }) ∧
    (∀ (apiKey : Option String) (files : List UploadFile),
      apiKeyMissing apiKey = false → files.isEmpty = false → files.length ≤ 10 →
      ∃ r : AnalyzeResponse, analyze apiKey guessType call files = .ok r) := by
  constructor
  · intro e he
    simp [_analyze_file, he]
  · intro apiKey files hk hne hlen
    refine ⟨{ results := files.map (_analyze_file guessType call) }, ?_⟩
    simp only [analyze, analyzeT]
    rw [if_neg (by simp [hne]), if_neg (by omega), if_neg (by simp [hk])]
    simp only [List.map_map]
    rfl

theorem claim_C2_witness :
    _analyze_file guessNone callFail emptyUpload =
      { filename := "f.png", type := "error", products := [], error := some "empty file" } ∧
    ∃ r : AnalyzeResponse,
      analyze (some "k") guessNone callFail [emptyUpload] = .ok r :=
  ⟨(claim_C2 guessNone callFail emptyUpload).1 "empty file" rfl,
   (claim_C2 guessNone callFail emptyUpload).2 (some "k") [emptyUpload] rfl rfl (by decide)⟩

/-- C3: the batch coordinator checks its preconditions in source order —
empty batch gives 400, more than ten files gives 400, a missing or empty
credential gives 500 — and in each case no per-image orchestration is
dispatched and no external-service call is made (both counters are zero). -/
theorem claim_C3 (apiKey : Option String) (guessType : String → Option String)
    (call : String → Except String Json) (files : List UploadFile) :
    (files = [] → analyzeT apiKey guessType call files =
      (.error { status_code := 400, detail := "At least one image is required" }, 0, 0)) ∧
    (files.length > 10 → analyzeT apiKey guessType call files =
      (.error { status_code := 400, detail := "Maximum of 10 images allowed" }, 0, 0)) ∧
    (apiKeyMissing apiKey = true → files ≠ [] → files.length ≤ 10 →
      analyzeT apiKey guessType call files =
      (.error { status_code := 500, detail := "OPENAI_API_KEY not configured" }, 0, 0)) := by
  refine ⟨?_, ?_, ?_⟩
  · intro h
    subst h
    rfl
  · intro h
    have hne : files.isEmpty = false := by
      cases files with
      | nil => simp at h
      | cons a l => rfl
    simp only [analyzeT]
    rw [if_neg (by simp [hne]), if_pos h]
  · intro hk hne hlen
    have hne' : files.isEmpty = false := by
      cases files with
      | nil => exact absurd rfl hne
      | cons a l => rfl
    simp only [analyzeT]
    rw [if_neg (by simp [hne']), if_neg (by omega), if_pos (by simp [hk])]

theorem claim_C3_witness :
    analyzeT (some "k") guessNone callFail [] =
      (.error { status_code := 400, detail := "At least one image is required" }, 0, 0) ∧
    analyzeT (some "k") guessNone callFail (List.replicate 11 sampleUpload) =
      (.error { status_code := 400, detail := "Maximum of 10 images allowed" }, 0, 0) ∧
    analyzeT none guessNone callFail sampleBatch =
      (.error { status_code := 500, detail := "OPENAI_API_KEY not configured" }, 0, 0) :=
  ⟨(claim_C3 (some "k") guessNone callFail []).1 rfl,
   (claim_C3 (some "k") guessNone callFail (List.replicate 11 sampleUpload)).2.1 (by decide),
   (claim_C3 none guessNone callFail sampleBatch).2.2 rfl (by decide) (by decide)⟩

/-- C10: the `ImageResult` returned by the per-image orchestrator carries
the upload's filename, on the success branch and on the error branch alike. -/
theorem claim_C10 (guessType : String → Option String)
    (call : String → Except String Json) (u : UploadFile) :
    (_analyze_file guessType call u).filename = u.filename := by
  unfold _analyze_file
  cases h : analyzeAttempt guessType call u with
  | ok r => exact (analyzeAttempt_ok_shape guessType call u r h).1
  | error e => rfl

/-- C4: every `ImageResult` produced by the per-image orchestrator satisfies
the exclusivity invariant — exactly one of (successful attempt with error
absent) or (type "error", error populated, products empty) holds. -/
theorem claim_C4 (guessType : String → Option String)
    (call : String → Except String Json) (u : UploadFile) :
    ((analyzeAttempt guessType call u = .ok (_analyze_file guessType call u) ∧
      (_analyze_file guessType call u).error = none) ∧
     ¬((_analyze_file guessType call u).type = "error" ∧
       (_analyze_file guessType call u).products = [] ∧
       (_analyze_file guessType call u).error ≠ none)) ∨
    (((_analyze_file guessType call u).type = "error" ∧
      (_analyze_file guessType call u).products = [] ∧
      (_analyze_file guessType call u).error ≠ none) ∧
     ¬(analyzeAttempt guessType call u = .ok (_analyze_file guessType call u) ∧
       (_analyze_file guessType call u).error = none)) := by
  cases h : analyzeAttempt guessType call u with
  | ok r =>
    left
    have hs := analyzeAttempt_ok_shape guessType call u r h
    have hr : _analyze_file guessType call u = r := by simp [_analyze_file, h]
    constructor
    · rw [hr]
      exact ⟨rfl, hs.2⟩
    · rintro ⟨-, -, herr⟩
      rw [hr] at herr
      exact herr hs.2
  | error e =>
    right
    have hr : _analyze_file guessType call u =
        { filename := u.filename, type := "error", products := [], error := some e } := by
      simp [_analyze_file, h]
    constructor
    · rw [hr]
      exact ⟨rfl, rfl, by simp⟩
    · rintro ⟨hok, -⟩
      exact Except.noConfusion hok

/-- C5: the encoder fails with the empty-input error on an empty buffer,
and otherwise returns the data URL whose payload is the base64 encoding of
the buffer and whose MIME type comes from the filename extension,
defaulting to image/png when that is unresolvable. -/
theorem claim_C5 (u : UploadFile) :
    (u.content = [] → _encode_image guess_type u = .error "empty file") ∧
    (u.content ≠ [] → _encode_image guess_type u =
      .ok ("data:" ++ pyOr (guess_type u.filename) "image/png" ++ ";base64," ++
        base64Encode u.content)) ∧
    (guess_type u.filename = none →
      pyOr (guess_type u.filename) "image/png" = "image/png") := by
  refine ⟨?_, ?_, ?_⟩
  · intro h
    have he : u.content.isEmpty = true := by rw [h]; rfl
    simp [_encode_image, he]
  · intro h
    have hne : u.content.isEmpty = false := by
      cases hc : u.content with
      | nil => exact absurd hc h
      | cons a l => rfl
    simp [_encode_image, hne]
  · intro h
    simp [pyOr, h]

theorem claim_C5_witness :
    _encode_image guess_type emptyUpload = .error "empty file" ∧
    _encode_image guess_type sampleUpload =
      .ok ("data:" ++ pyOr (guess_type sampleUpload.filename) "image/png" ++ ";base64," ++
        base64Encode sampleUpload.content) ∧
    pyOr (guess_type noExtUpload.filename) "image/png" = "image/png" :=
  ⟨(claim_C5 emptyUpload).1 rfl,
   (claim_C5 sampleUpload).2.1 (by decide),
   (claim_C5 noExtUpload).2.2 rfl⟩

/-- C9: for every non-empty byte buffer the encoder succeeds, its output is
the data URL whose payload follows the marker, and base64-decoding that
payload yields exactly the original buffer. -/
theorem claim_C9 (guessType : String → Option String) (u : UploadFile)
    (hb : ∀ b ∈ u.content, b < 256) (hne : u.content ≠ []) :
    _encode_image guessType u =
      .ok ("data:" ++ pyOr (guessType u.filename) "image/png" ++ ";base64," ++
        base64Encode u.content) ∧
    base64Decode (base64Encode u.content) = some u.content := by
  constructor
  · have hne' : u.content.isEmpty = false := by
      cases hc : u.content with
      | nil => exact absurd hc hne
      | cons a l => rfl
    simp [_encode_image, hne']
  · exact b64_roundtrip u.content hb

theorem claim_C9_witness :
    _encode_image guessNone sampleUpload =
      .ok ("data:" ++ pyOr (guessNone sampleUpload.filename) "image/png" ++ ";base64," ++
        base64Encode sampleUpload.content) ∧
    base64Decode (base64Encode sampleUpload.content) = some sampleUpload.content :=
  claim_C9 guessNone sampleUpload (by decide) (by decide)

/-- C6: when a well-formed extraction response contains an item that omits
the brand key, the parsed product's brand is null and the orchestrator
returns a successful, not error-typed, result carrying that product. -/
theorem claim_C6 (guessType : String → Option String) (u : UploadFile)
    (t : String) (fs : List (String × Json)) (p : ProductOut)
    (hne : u.content ≠ [])
    (hbrand : lookupField fs "brand" = none)
    (hp : productOfJson (Json.obj fs) = .ok p) :
    p.brand = none ∧
    _analyze_file guessType
      (fun _ => .ok (Json.obj [("type", Json.str t), ("extracted", Json.arr [Json.obj fs])])) u =
      { filename := u.filename, type := t, products := [p], error := none } := by
  have hne' : u.content.isEmpty = false := by
    cases hc : u.content with
    | nil => exact absurd hc hne
    | cons a l => rfl
  constructor
  · simp only [productOfJson, hbrand, parseOptStr, bind, Except.bind] at hp
    split at hp
    · cases hp
    · split at hp
      · cases hp
      · cases hp
        rfl
  · simp [_analyze_file, analyzeAttempt, _encode_image, hne', getType, getExtracted,
      lookupField, parseProducts, hp, bind, Except.bind]

theorem claim_C6_witness :
    (⟨none, "Tee", none⟩ : ProductOut).brand = none ∧
    _analyze_file guessNone
      (fun _ => .ok (Json.obj [("type", Json.str "product page"),
        ("extracted", Json.arr [Json.obj itemNoBrand])])) sampleUpload =
      { filename := sampleUpload.filename, type := "product page",
        products := [⟨none, "Tee", none⟩], error := none } :=
  claim_C6 guessNone sampleUpload "product page" itemNoBrand ⟨none, "Tee", none⟩
    (by decide) rfl rfl

/-- C7: on the spec's concrete well-formed extraction response the
orchestrator produces type "checkout page", no error, and exactly the one
product brand Nike, product_name Running Shorts, price $24.99. -/
theorem claim_C7 :
    _analyze_file guessNone call7 sampleUpload =
      { filename := "a.png", type := "checkout page",
        products := [{ brand := some "Nike", product_name := "Running Shorts",
                       price := some "$24.99" }], error := none } := rfl

/-- C8: a parsed response omitting the type key yields type "unknown", and
one omitting the extracted key yields an empty product list; neither
omission produces an error-typed result. -/
theorem claim_C8 (guessType : String → Option String) (u : UploadFile)
    (fs : List (String × Json)) (hne : u.content ≠ []) :
    (lookupField fs "type" = none → lookupField fs "extracted" = none →
      _analyze_file guessType (fun _ => .ok (Json.obj fs)) u =
        { filename := u.filename, type := "unknown", products := [], error := none }) ∧
    (∀ t : String, lookupField fs "type" = some (Json.str t) →
      lookupField fs "extracted" = none →
      _analyze_file guessType (fun _ => .ok (Json.obj fs)) u =
        { filename := u.filename, type := t, products := [], error := none }) ∧
    (∀ (items : List Json) (ps : List ProductOut),
      lookupField fs "type" = none →
      lookupField fs "extracted" = some (Json.arr items) →
      parseProducts items = .ok ps →
      _analyze_file guessType (fun _ => .ok (Json.obj fs)) u =
        { filename := u.filename, type := "unknown", products := ps, error := none }) := by
  have hne' : u.content.isEmpty = false := by
    cases hc : u.content with
    | nil => exact absurd hc hne
    | cons a l => rfl
  refine ⟨?_, ?_, ?_⟩
  · intro h1 h2
    simp [_analyze_file, analyzeAttempt, _encode_image, hne', getType, getExtracted,
      h1, h2, parseProducts, bind, Except.bind]
  · intro t h1 h2
    simp [_analyze_file, analyzeAttempt, _encode_image, hne', getType, getExtracted,
      h1, h2, parseProducts, bind, Except.bind]
  · intro items ps h1 h2 h3
    simp [_analyze_file, analyzeAttempt, _encode_image, hne', getType, getExtracted,
      h1, h2, h3, bind, Except.bind]

theorem claim_C8_witness :
    _analyze_file guessNone (fun _ => .ok (Json.obj [])) sampleUpload =
      { filename := sampleUpload.filename, type := "unknown", products := [], error := none } ∧
    _analyze_file guessNone (fun _ => .ok (Json.obj [("type", Json.str "cart")])) sampleUpload =
      { filename := sampleUpload.filename, type := "cart", products := [], error := none } ∧
    _analyze_file guessNone (fun _ => .ok (Json.obj [("extracted", Json.arr [])])) sampleUpload =
      { filename := sampleUpload.filename, type := "unknown", products := [], error := none } :=
  ⟨(claim_C8 guessNone sampleUpload [] (by decide)).1 rfl rfl,
   (claim_C8 guessNone sampleUpload [("type", Json.str "cart")] (by decide)).2.1 "cart" rfl rfl,
   (claim_C8 guessNone sampleUpload [("extracted", Json.arr [])] (by decide)).2.2 [] [] rfl rfl rfl⟩
